import Mathlib

/-!
Shallow embedding of the go-expert-otel repository (otel-lib/pkg/otel.go and
the demonstration entry point).  The library wires the OpenTelemetry Go SDK:
`InitProvider` builds a resource-attribute list, constructs an OTLP/gRPC
trace exporter, wraps it in a batch span processor, builds a tracer provider
and installs it (together with a composite text-map propagator) as
process-wide global state.  A `Provider` hands out named tracers and a
`TracerMiddleware` packages one tracer for use around HTTP handlers.

The external SDK calls (`resource.New`, `otlptrace.New`) are modelled by an
oracle `ExtEnv` that decides whether each external construction fails and
which extra detector attributes the resource builder contributes; the
deterministic parts of the code are translated directly.  Process-wide
global state (`otel.SetTracerProvider`, `otel.SetTextMapPropagator`) is
modelled by explicit state passing over `OtelGlobals`.
-/

namespace GoOtel

/-- Value of an OpenTelemetry attribute: the primitive kinds the code uses
(`attribute.String`, plus bool/int for caller-supplied attributes). -/
inductive AttrValue where
  | str (s : String)
  | boolVal (b : Bool)
  | intVal (i : Int)
  deriving DecidableEq, Repr

/-- An `attribute.KeyValue` pair. -/
structure KeyValue where
  key : String
  value : AttrValue
  deriving DecidableEq, Repr

/-- Model of `attribute.String(k, v)`. -/
def attributeString (k v : String) : KeyValue := ⟨k, AttrValue.str v⟩

/-- The semconv v1.12.0 key `semconv.ServiceNameKey` ("service.name"). -/
def serviceNameKey : String := "service.name"

/-- The semconv v1.12.0 key `semconv.ServiceVersionKey` ("service.version"). -/
def serviceVersionKey : String := "service.version"

/-- Model of `sdktrace.Sampler`, an opaque sampling strategy object.  The
code only ever constructs `AlwaysSample` (in `DefaultConfig`) but the field
accepts any strategy. -/
inductive Sampler where
  | alwaysSample
  | neverSample
  | ratioBased (num den : Nat)
  deriving DecidableEq, Repr

/-- The `Config` struct of otel.go (lines 21-29).  `Timeout` is a
`time.Duration` in nanoseconds. -/
structure Config where
  ServiceName : String
  ServiceVersion : String
  Environment : String
  OtelEndpoint : String
  Attributes : List KeyValue
  Sampler : Sampler
  Timeout : Nat
  deriving DecidableEq, Repr

/-- The `DefaultConfig` function of otel.go (lines 32-42). -/
def DefaultConfig : Config :=
  { ServiceName := "unknown-service"
    ServiceVersion := "0.0.1"
    Environment := "development"
    OtelEndpoint := "localhost:4317"
    Attributes := []
    Sampler := Sampler.alwaysSample
    Timeout := 5 * 1000000000 }

/-- Model of a Go `context.Context`: the only observable the code relies on
is an optional deadline (nanoseconds). -/
structure GoContext where
  deadlineNs : Option Nat
  deriving DecidableEq, Repr

/-- Model of a Go wrapped error: `fmt.Errorf("msg: %w", cause)` becomes
`GoErr.wrap "msg" cause`. -/
inductive GoErr where
  | base (msg : String)
  | wrap (msg : String) (cause : GoErr)
  deriving DecidableEq, Repr

/-- The `Error()` string of a Go error; `fmt.Errorf("m: %w", c)` renders as
`m ++ ": " ++ c.Error()`. -/
def GoErr.message : GoErr → String
  | GoErr.base m => m
  | GoErr.wrap m c => m ++ ": " ++ c.message

/-- The `errors.Unwrap` of a Go error: a wrapped error preserves its cause. -/
def GoErr.unwrap : GoErr → Option GoErr
  | GoErr.base _ => none
  | GoErr.wrap _ c => some c

/-- Model of a `grpc.DialOption` as used by the code: `grpc.WithBlock()`
makes the dial synchronous; other dial options exist in the gRPC API but the
code passes only `WithBlock`. -/
inductive DialOption where
  | withBlock
  | withUserAgent (s : String)
  deriving DecidableEq, Repr

/-- Model of an `otlptracegrpc.Option`.  `withTLSCredentials` is the API's
encrypted-transport option; the repository never constructs it, but it is
part of the option language so that "insecure" is a real property of the
option list rather than a vacuity. -/
inductive ClientOption where
  | withInsecure
  | withTLSCredentials (creds : String)
  | withEndpoint (endpoint : String)
  | withDialOption (d : DialOption)
  deriving DecidableEq, Repr

/-- Model of the client value built by `otlptracegrpc.NewClient(opts...)`:
it records the options it was given. -/
structure GRPCClient where
  options : List ClientOption
  deriving DecidableEq, Repr

/-- Model of `otlptracegrpc.NewClient`. -/
def NewClient (opts : List ClientOption) : GRPCClient := ⟨opts⟩

/-- Transport security selected by an option list, with the gRPC rule that a
later security option overrides an earlier one; the default (no security
option given) is the encrypted/credential-requiring transport, hence
`false`. -/
def GRPCClient.usesInsecureTransport (c : GRPCClient) : Bool :=
  c.options.foldl
    (fun acc o =>
      match o with
      | ClientOption.withInsecure => true
      | ClientOption.withTLSCredentials _ => false
      | _ => acc)
    false

/-- The gRPC dial options carried by the client's option list. -/
def GRPCClient.dialOptions (c : GRPCClient) : List DialOption :=
  c.options.filterMap
    (fun o =>
      match o with
      | ClientOption.withDialOption d => some d
      | _ => none)

/-- Modelled gRPC dialing semantics: a dial performed with the
`grpc.WithBlock()` option blocks the calling goroutine until the connection
is established or the context deadline elapses, instead of connecting
lazily in the background.  In the model the client dials synchronously
exactly when `withBlock` is among its dial options. -/
def GRPCClient.dialBlocksUntilConnected (c : GRPCClient) : Bool :=
  c.dialOptions.any
    (fun d =>
      match d with
      | DialOption.withBlock => true
      | _ => false)

/-- The endpoint configured on the client (last `withEndpoint` wins, none if
no endpoint option was given). -/
def GRPCClient.endpoint (c : GRPCClient) : Option String :=
  c.options.foldl
    (fun acc o =>
      match o with
      | ClientOption.withEndpoint e => some e
      | _ => acc)
    none

/-- Model of the trace exporter returned by `otlptrace.New`: it holds the
network client it was built from. -/
structure Exporter where
  client : GRPCClient
  deriving DecidableEq, Repr

/-- Model of a `sdktrace.SpanProcessor`; the code builds exactly
`sdktrace.NewBatchSpanProcessor(exporter)`. -/
inductive SpanProcessor where
  | batch (e : Exporter)
  deriving DecidableEq, Repr

/-- Model of a `resource.Resource`: the attribute set describing the
emitting process. -/
structure Resource where
  attrs : List KeyValue
  deriving DecidableEq, Repr

/-- Value of the first attribute with the given key, as a backend reading
the descriptor would resolve it. -/
def Resource.lookup (r : Resource) (k : String) : Option AttrValue :=
  (r.attrs.find? (fun a => a.key = k)).map KeyValue.value

/-- Model of a `sdktrace.TracerProvider` built by
`sdktrace.NewTracerProvider` from the three options the code passes. -/
structure TracerProvider where
  sampler : Sampler
  resource : Resource
  spanProcessors : List SpanProcessor
  deriving DecidableEq, Repr

/-- Model of a `propagation.TextMapPropagator` as far as the code builds
one: the composite of the listed parts, or the library default. -/
inductive PropagatorPart where
  | traceContext
  | baggage
  deriving DecidableEq, Repr

/-- The process-wide propagation format. -/
inductive Propagator where
  | defaultPropagator
  | composite (parts : List PropagatorPart)
  deriving DecidableEq, Repr

/-- Process-wide mutable state of the `otel` global package.  Besides the
tracer provider and the text-map propagator (the two globals the code
writes), the package holds a meter provider, an error handler and a logger;
they are opaque here (represented by tags) and exist so that the frame
property "no other global state is written" is expressible. -/
structure OtelGlobals where
  tracerProvider : Option TracerProvider
  textMapPropagator : Propagator
  meterProvider : Option Nat
  errorHandler : Option Nat
  globalLogger : Option Nat
  deriving DecidableEq, Repr

/-- Oracle for the two fallible external SDK constructors and for the
attributes the resource detectors (`WithProcessRuntimeDescription`,
`WithTelemetrySDK`) contribute.  A `some e` means the corresponding
constructor fails with error `e` (for any reason the SDK can fail,
including a lapsed context deadline). -/
structure ExtEnv where
  resourceNewErr : Option GoErr
  exporterNewErr : Option GoErr
  detectorAttrs : List KeyValue
  deriving DecidableEq, Repr

/-- Model of `resource.New(ctx, WithAttributes(attrs...),
WithProcessRuntimeDescription(), WithTelemetrySDK())`: on success the
resulting descriptor carries the requested attributes followed by whatever
the two detectors contribute. -/
def resourceNew (env : ExtEnv) (_ctx : GoContext) (attrs : List KeyValue) :
    Except GoErr Resource :=
  match env.resourceNewErr with
  | some e => Except.error e
  | none => Except.ok ⟨attrs ++ env.detectorAttrs⟩

/-- Model of `otlptrace.New(ctx, client)`: on success the exporter wraps the
given client. -/
def otlptraceNew (env : ExtEnv) (_ctx : GoContext) (client : GRPCClient) :
    Except GoErr Exporter :=
  match env.exporterNewErr with
  | some e => Except.error e
  | none => Except.ok ⟨client⟩

/-- The `Provider` struct of otel.go (lines 45-48). -/
structure Provider where
  tracerProvider : TracerProvider
  config : Config
  deriving DecidableEq, Repr

/-- Model of `(*sdktrace.TracerProvider).Tracer(name)`: a named tracer
handle; the SDK returns a tracer determined by the provider and the scope
name, with no error outcome. -/
structure Tracer where
  scopeName : String
  deriving DecidableEq, Repr

/-- The SDK's `Tracer` accessor on a tracer provider. -/
def TracerProvider.Tracer (_tp : TracerProvider) (name : String) : Tracer :=
  ⟨name⟩

/-- The `GetTracer` method of otel.go (lines 56-58). -/
def Provider.GetTracer (p : Provider) (name : String) : Tracer :=
  p.tracerProvider.Tracer name

/-- The `GetTracerProvider` method of otel.go (lines 61-63). -/
def Provider.GetTracerProvider (p : Provider) : TracerProvider :=
  p.tracerProvider

/-- The resource-attribute list `InitProvider` assembles and passes to the
resource builder (otel.go lines 68-73): the three built-in attributes
followed by the caller-supplied `cfg.Attributes`. -/
def initResourceAttrs (cfg : Config) : List KeyValue :=
  [attributeString serviceNameKey cfg.ServiceName,
   attributeString serviceVersionKey cfg.ServiceVersion,
   attributeString "environment" cfg.Environment] ++ cfg.Attributes

/-- The network client `InitProvider` hands to the exporter constructor
(otel.go lines 85-92): `secureOption := otlptracegrpc.WithInsecure()`, then
`otlptracegrpc.NewClient(secureOption, WithEndpoint(cfg.OtelEndpoint),
WithDialOption(grpc.WithBlock()))`. -/
def initExporterClient (cfg : Config) : GRPCClient :=
  let secureOption := ClientOption.withInsecure
  NewClient
    [secureOption,
     ClientOption.withEndpoint cfg.OtelEndpoint,
     ClientOption.withDialOption DialOption.withBlock]

/-- The `InitProvider` function of otel.go (lines 66-121), with the
process-wide globals passed explicitly and the external SDK modelled by
`env`.  Returns the Go result (`*Provider, error` as an `Except`) together
with the globals after the call. -/
def InitProvider (env : ExtEnv) (ctx : GoContext) (cfg : Config)
    (g : OtelGlobals) : Except GoErr Provider × OtelGlobals :=
  let attrs := initResourceAttrs cfg
  match resourceNew env ctx attrs with
  | Except.error err =>
      (Except.error (GoErr.wrap "failed to create resource" err), g)
  | Except.ok res =>
      let client := initExporterClient cfg
      match otlptraceNew env ctx client with
      | Except.error err =>
          (Except.error (GoErr.wrap "failed to create trace exporter" err), g)
      | Except.ok traceExporter =>
          let bsp := SpanProcessor.batch traceExporter
          let tracerProvider : TracerProvider :=
            { sampler := cfg.Sampler
              resource := res
              spanProcessors := [bsp] }
          let g1 := { g with tracerProvider := some tracerProvider }
          let g2 := { g1 with
            textMapPropagator :=
              Propagator.composite
                [PropagatorPart.traceContext, PropagatorPart.baggage] }
          (Except.ok { tracerProvider := tracerProvider, config := cfg }, g2)

/-- The tracer provider `InitProvider` builds on its success path (otel.go
lines 99-106): the configured sampler, the resource returned by the
resource builder, and a single batch span processor wrapping the exporter
built from `initExporterClient`. -/
def initTracerProvider (env : ExtEnv) (cfg : Config) : TracerProvider :=
  { sampler := cfg.Sampler
    resource := ⟨initResourceAttrs cfg ++ env.detectorAttrs⟩
    spanProcessors := [SpanProcessor.batch ⟨initExporterClient cfg⟩] }

/-- A span record of the delegated SDK: instrumentation-scope name (the
tracer's name), span name, parent span (by index into the trace state),
attached attributes and whether `End` has been called. -/
structure Span where
  scope : String
  name : String
  parent : Option Nat
  attrs : List KeyValue
  ended : Bool
  deriving DecidableEq, Repr

/-- The span-relevant content of a Go `context.Context`: the current span,
if one is stored in the context, as an index into the trace state. -/
structure SpanContext where
  currentSpan : Option Nat
  deriving DecidableEq, Repr

/-- State of the delegated tracing SDK: every span started so far, in
creation order; a span's index is its identity. -/
structure TraceState where
  spans : List Span
  deriving DecidableEq, Repr

/-- Model of `tracer.Start(ctx, name)`: appends a fresh unended span whose
parent is the span currently in `ctx` (none makes it a root span), and
returns the derived context carrying the new span together with the new
span's identity. -/
def Tracer.start (t : Tracer) (ctx : SpanContext) (name : String)
    (st : TraceState) : SpanContext × Nat × TraceState :=
  let sid := st.spans.length
  (⟨some sid⟩, sid,
   ⟨st.spans ++ [{ scope := t.scopeName, name := name,
                   parent := ctx.currentSpan, attrs := [], ended := false }]⟩)

/-- Model of `span.SetAttributes(as...)` on the span with identity `sid`. -/
def TraceState.setSpanAttributes (st : TraceState) (sid : Nat)
    (as : List KeyValue) : TraceState :=
  match st.spans[sid]? with
  | none => st
  | some s => ⟨st.spans.set sid { s with attrs := s.attrs ++ as }⟩

/-- Model of `span.End()` on the span with identity `sid`. -/
def TraceState.endSpan (st : TraceState) (sid : Nat) : TraceState :=
  match st.spans[sid]? with
  | none => st
  | some s => ⟨st.spans.set sid { s with ended := true }⟩

/-- Request target: the path and raw query of `r.URL` for a server-side
request. -/
structure URL where
  path : String
  rawQuery : String
  deriving DecidableEq, Repr

/-- Model of `r.URL.String()` for a server-side request URL. -/
def URL.render (u : URL) : String :=
  u.path ++ (if u.rawQuery = "" then "" else "?" ++ u.rawQuery)

/-- Model of an inbound `*http.Request`: method, target URL and the request
context. -/
structure Request where
  method : String
  url : URL
  ctx : SpanContext
  deriving DecidableEq, Repr

/-- Model of `r.WithContext(ctx)`. -/
def Request.withContext (r : Request) (c : SpanContext) : Request :=
  { r with ctx := c }

/-- An HTTP handler, as its effect on the tracing state: it may start, end
and attribute spans of its own. -/
def Handler : Type := Request → TraceState → TraceState

/-- A handler is well behaved when it never rewrites the name, attributes,
scope or parent of a span that existed before it ran (it may freely append
its own spans and end existing ones); real handlers only operate on spans
they created. -/
def Handler.preservesExisting (h : Handler) : Prop :=
  ∀ (r : Request) (st : TraceState) (i : Nat) (s : Span),
    st.spans[i]? = some s →
    ∃ s' : Span, (h r st).spans[i]? = some s' ∧ s'.scope = s.scope ∧
      s'.name = s.name ∧ s'.attrs = s.attrs ∧ s'.parent = s.parent

/-- The `TracerMiddleware` struct of otel.go (lines 124-126). -/
structure TracerMiddleware where
  Tracer : Tracer
  deriving DecidableEq, Repr

/-- The `NewTracerMiddleware` function of otel.go (lines 129-133). -/
def NewTracerMiddleware (provider : Provider) (tracerName : String) :
    TracerMiddleware :=
  { Tracer := provider.GetTracer tracerName }

/-- The middleware's `Handle` composition, exactly as the usage example in
otel.go (lines 137-154) spells it out: start a span named
`method ++ " " ++ path`, defer its `End`, set the `http.method` and
`http.url` attributes, then run the wrapped handler on the derived context.
The deferred `End` runs after the handler returns on every exit path. -/
def TracerMiddleware.Handle (m : TracerMiddleware) (next : Handler) :
    Handler :=
  fun r st =>
    let ctx := r.ctx
    let spanName := r.method ++ " " ++ r.url.path
    let res := m.Tracer.start ctx spanName st
    let ctx' := res.1
    let sid := res.2.1
    let st1 := res.2.2
    let st2 := st1.setSpanAttributes sid
      [attributeString "http.method" r.method,
       attributeString "http.url" r.url.render]
    let st3 := next (r.withContext ctx') st2
    st3.endSpan sid

/-- Concrete globals value used by closed instantiations: nothing installed
yet. -/
def sampleGlobals : OtelGlobals :=
  { tracerProvider := none
    textMapPropagator := Propagator.defaultPropagator
    meterProvider := none
    errorHandler := none
    globalLogger := none }

/-- Concrete oracle on which both external constructors succeed and the
detectors contribute nothing. -/
def sampleEnvOk : ExtEnv := { resourceNewErr := none, exporterNewErr := none, detectorAttrs := [] }

/-- Concrete context with no deadline. -/
def sampleCtx : GoContext := { deadlineNs := none }

/-- Concrete configuration with one caller-supplied attribute, mirroring
the demonstration entry point's configuration. -/
def sampleConfig : Config :=
  { DefaultConfig with
      Attributes := [⟨"deployment.region", AttrValue.str "br-south"⟩] }

/-- Concrete provider value used by closed instantiations. -/
def sampleProvider : Provider :=
  { tracerProvider :=
      { sampler := Sampler.alwaysSample
        resource := ⟨[]⟩
        spanProcessors := [] }
    config := DefaultConfig }

/-- A handler that does no tracing of its own, used as a concrete wrapped
handler in closed instantiations. -/
def idHandler : Handler := fun _ st => st

/-! Helper lemmas about list indexing and the span-state operations. -/

theorem getElem?_set_of_some {α : Type _} {l : List α} {i : Nat} {b : α}
    (a : α) (h : l[i]? = some b) : (l.set i a)[i]? = some a := by
  have hi : i < l.length := by
    rcases List.getElem?_eq_some.mp h with ⟨h1, _⟩
    exact h1
  simp [List.getElem?_set_self', List.getElem?_eq_getElem hi]

theorem setSpanAttributes_getElem (st : TraceState) (sid : Nat) (s : Span)
    (as : List KeyValue) (h : st.spans[sid]? = some s) :
    (st.setSpanAttributes sid as).spans[sid]? =
      some { s with attrs := s.attrs ++ as } := by
  unfold TraceState.setSpanAttributes
  rw [h]
  exact getElem?_set_of_some _ h

theorem endSpan_getElem (st : TraceState) (sid : Nat) (s : Span)
    (h : st.spans[sid]? = some s) :
    (st.endSpan sid).spans[sid]? = some { s with ended := true } := by
  unfold TraceState.endSpan
  rw [h]
  exact getElem?_set_of_some _ h

theorem initProvider_ok_eq (env : ExtEnv) (ctx : GoContext) (cfg : Config)
    (g : OtelGlobals) (h1 : env.resourceNewErr = none)
    (h2 : env.exporterNewErr = none) :
    InitProvider env ctx cfg g =
      (Except.ok
        { tracerProvider := initTracerProvider env cfg, config := cfg },
       { g with
          tracerProvider := some (initTracerProvider env cfg),
          textMapPropagator := Propagator.composite
            [PropagatorPart.traceContext, PropagatorPart.baggage] }) := by
  simp [InitProvider, resourceNew, otlptraceNew, h1, h2, initTracerProvider]

/-- Claim C10: in the attribute list `InitProvider` passes to the resource
builder, the three built-in attributes (service name, service version,
environment) occupy the first three positions in that order, the
caller-supplied attributes follow in their original relative order, and
consequently a caller-supplied attribute duplicating a built-in key sits
after the built-in one, so first-match lookup still resolves to the
built-in value. -/
theorem initResourceAttrs_order (cfg : Config) :
    (initResourceAttrs cfg).take 3 =
      [attributeString serviceNameKey cfg.ServiceName,
       attributeString serviceVersionKey cfg.ServiceVersion,
       attributeString "environment" cfg.Environment] ∧
    (initResourceAttrs cfg).drop 3 = cfg.Attributes ∧
    (Resource.mk (initResourceAttrs cfg)).lookup serviceNameKey
      = some (AttrValue.str cfg.ServiceName) ∧
    (Resource.mk (initResourceAttrs cfg)).lookup serviceVersionKey
      = some (AttrValue.str cfg.ServiceVersion) ∧
    (Resource.mk (initResourceAttrs cfg)).lookup "environment"
      = some (AttrValue.str cfg.Environment) := by
  refine ⟨rfl, rfl, ?_, ?_, ?_⟩ <;>
    simp [initResourceAttrs, Resource.lookup, attributeString,
      serviceNameKey, serviceVersionKey, List.find?]

/-- Claim C7: for every configuration, the network client `InitProvider`
builds for the exporter selects the unencrypted transport (the fold over
its option list, in which a later security option would override an
earlier one, ends on `withInsecure`); since the statement is universally
quantified over `Config`, no configuration field can select an encrypted
channel. -/
theorem initExporterClient_insecure_transport (cfg : Config) :
    (initExporterClient cfg).usesInsecureTransport = true := rfl

/-- Claim C9: for every configuration, the client `InitProvider` hands to
the exporter constructor carries the `withBlock` dial option, so in the
modelled gRPC semantics the connection to the collector endpoint is
established synchronously — the dial blocks the calling task until the
connection is up or the context deadline elapses — rather than lazily in
the background. -/
theorem initExporterClient_dial_blocking (cfg : Config) :
    (initExporterClient cfg).dialBlocksUntilConnected = true := rfl

/-- Claim C1: if either external construction stage fails, `InitProvider`
returns an error (and no provider) and leaves the process-wide globals
exactly as they were — neither a tracer provider nor a propagation format
is installed; when both stages succeed it returns a usable provider whose
tracer accessor yields a tracer for every name. -/
theorem initProvider_atomicity (env : ExtEnv) (ctx : GoContext)
    (cfg : Config) (g : OtelGlobals) :
    ((env.resourceNewErr = none ∧ env.exporterNewErr = none) →
      ∃ p g', InitProvider env ctx cfg g = (Except.ok p, g') ∧
        ∀ name, (p.GetTracer name).scopeName = name) ∧
    ((env.resourceNewErr ≠ none ∨ env.exporterNewErr ≠ none) →
      ∃ e, InitProvider env ctx cfg g = (Except.error e, g)) := by
  constructor
  · rintro ⟨h1, h2⟩
    refine ⟨{ tracerProvider :=
                { sampler := cfg.Sampler
                  resource := ⟨initResourceAttrs cfg ++ env.detectorAttrs⟩
                  spanProcessors := [SpanProcessor.batch ⟨initExporterClient cfg⟩] }
              config := cfg },
            { g with
                tracerProvider := some
                  { sampler := cfg.Sampler
                    resource := ⟨initResourceAttrs cfg ++ env.detectorAttrs⟩
                    spanProcessors := [SpanProcessor.batch ⟨initExporterClient cfg⟩] }
                textMapPropagator := Propagator.composite
                  [PropagatorPart.traceContext, PropagatorPart.baggage] },
            ?_, fun name => rfl⟩
    simp [InitProvider, resourceNew, otlptraceNew, h1, h2]
  · rintro (h | h)
    · obtain ⟨e, he⟩ := Option.ne_none_iff_exists'.mp h
      exact ⟨GoErr.wrap "failed to create resource" e,
        by simp [InitProvider, resourceNew, he]⟩
    · cases hr : env.resourceNewErr with
      | some c =>
        exact ⟨GoErr.wrap "failed to create resource" c,
          by simp [InitProvider, resourceNew, hr]⟩
      | none =>
        obtain ⟨e, he⟩ := Option.ne_none_iff_exists'.mp h
        exact ⟨GoErr.wrap "failed to create trace exporter" e,
          by simp [InitProvider, resourceNew, otlptraceNew, hr, he]⟩

/-- Witness for claim C1 at concrete inputs: a run where both stages
succeed yields a provider, and a run whose resource stage fails yields an
error with the globals untouched. -/
theorem initProvider_atomicity_witness :
    (∃ p g', InitProvider sampleEnvOk sampleCtx DefaultConfig sampleGlobals
        = (Except.ok p, g') ∧ ∀ name, (p.GetTracer name).scopeName = name) ∧
    (∃ e, InitProvider ⟨some (GoErr.base "rerr"), none, []⟩ sampleCtx
        DefaultConfig sampleGlobals = (Except.error e, sampleGlobals)) :=
  ⟨(initProvider_atomicity sampleEnvOk sampleCtx DefaultConfig sampleGlobals).1
      ⟨rfl, rfl⟩,
   (initProvider_atomicity ⟨some (GoErr.base "rerr"), none, []⟩ sampleCtx
      DefaultConfig sampleGlobals).2 (Or.inl (by simp))⟩

/-- Claim C3: for every configuration, on the success path the resource
descriptor carried by the provider `InitProvider` returns contains the
built-in service-name and service-version semantic attributes, the
`environment` attribute holding the configured deployment environment, and
every caller-supplied attribute from `cfg.Attributes`. -/
theorem initProvider_resource_contains_attrs (env : ExtEnv) (ctx : GoContext)
    (cfg : Config) (g : OtelGlobals)
    (h1 : env.resourceNewErr = none) (h2 : env.exporterNewErr = none) :
    ∃ p g', InitProvider env ctx cfg g = (Except.ok p, g') ∧
      attributeString serviceNameKey cfg.ServiceName
        ∈ p.tracerProvider.resource.attrs ∧
      attributeString serviceVersionKey cfg.ServiceVersion
        ∈ p.tracerProvider.resource.attrs ∧
      attributeString "environment" cfg.Environment
        ∈ p.tracerProvider.resource.attrs ∧
      ∀ a ∈ cfg.Attributes, a ∈ p.tracerProvider.resource.attrs := by
  refine ⟨_, _, initProvider_ok_eq env ctx cfg g h1 h2, ?_, ?_, ?_, ?_⟩ <;>
    simp [initTracerProvider, initResourceAttrs]
  intro a ha
  simp [ha]

/-- Witness for claim C3: a run on the sample configuration, whose
resource contains the three built-ins and the caller-supplied
`deployment.region` attribute. -/
theorem initProvider_resource_contains_attrs_witness :
    ∃ p g', InitProvider sampleEnvOk sampleCtx sampleConfig sampleGlobals
        = (Except.ok p, g') ∧
      attributeString serviceNameKey sampleConfig.ServiceName
        ∈ p.tracerProvider.resource.attrs ∧
      attributeString serviceVersionKey sampleConfig.ServiceVersion
        ∈ p.tracerProvider.resource.attrs ∧
      attributeString "environment" sampleConfig.Environment
        ∈ p.tracerProvider.resource.attrs ∧
      ∀ a ∈ sampleConfig.Attributes, a ∈ p.tracerProvider.resource.attrs :=
  initProvider_resource_contains_attrs sampleEnvOk sampleCtx sampleConfig
    sampleGlobals rfl rfl

/-- Claim C4: on every successful call, `InitProvider` changes exactly two
fields of the process-wide global state — it installs the newly built
tracer provider as the global tracer provider and installs the composite
trace-context-plus-baggage propagation format — and every other global
(meter provider, error handler, logger) is left exactly as it was. -/
theorem initProvider_globals_frame (env : ExtEnv) (ctx : GoContext)
    (cfg : Config) (g : OtelGlobals)
    (h1 : env.resourceNewErr = none) (h2 : env.exporterNewErr = none) :
    ∃ p, InitProvider env ctx cfg g =
      (Except.ok p,
       { g with
          tracerProvider := some p.tracerProvider,
          textMapPropagator := Propagator.composite
            [PropagatorPart.traceContext, PropagatorPart.baggage] }) :=
  ⟨{ tracerProvider := initTracerProvider env cfg, config := cfg },
   initProvider_ok_eq env ctx cfg g h1 h2⟩

/-- Witness for claim C4: the frame property at a concrete successful
run. -/
theorem initProvider_globals_frame_witness :
    ∃ p, InitProvider sampleEnvOk sampleCtx sampleConfig sampleGlobals =
      (Except.ok p,
       { sampleGlobals with
          tracerProvider := some p.tracerProvider,
          textMapPropagator := Propagator.composite
            [PropagatorPart.traceContext, PropagatorPart.baggage] }) :=
  initProvider_globals_frame sampleEnvOk sampleCtx sampleConfig sampleGlobals
    rfl rfl

/-- Claim C5: every error `InitProvider` returns is a wrapped error naming
the failing stage — a resource-stage failure is wrapped with the
resource-stage message and an exporter-stage failure with the
exporter-stage message — whose rendered message prefixes that stage label
to the cause's message and whose unwrap recovers the underlying cause. -/
theorem initProvider_error_stage_wrapped (env : ExtEnv) (ctx : GoContext)
    (cfg : Config) (g : OtelGlobals) (e : GoErr) (gOut : OtelGlobals)
    (h : InitProvider env ctx cfg g = (Except.error e, gOut)) :
    (∃ cause, env.resourceNewErr = some cause ∧
       e = GoErr.wrap "failed to create resource" cause ∧
       e.message = "failed to create resource: " ++ cause.message ∧
       e.unwrap = some cause) ∨
    (∃ cause, env.resourceNewErr = none ∧ env.exporterNewErr = some cause ∧
       e = GoErr.wrap "failed to create trace exporter" cause ∧
       e.message = "failed to create trace exporter: " ++ cause.message ∧
       e.unwrap = some cause) := by
  cases hr : env.resourceNewErr with
  | some c =>
    simp [InitProvider, resourceNew, hr] at h
    obtain ⟨he, _⟩ := h
    exact Or.inl ⟨c, rfl, he.symm, by rw [← he]; rfl, by rw [← he]; rfl⟩
  | none =>
    cases hx : env.exporterNewErr with
    | some c =>
      simp [InitProvider, resourceNew, otlptraceNew, hr, hx] at h
      obtain ⟨he, _⟩ := h
      exact Or.inr ⟨c, rfl, rfl, he.symm, by rw [← he]; rfl, by rw [← he]; rfl⟩
    | none =>
      simp [InitProvider, resourceNew, otlptraceNew, hr, hx] at h

/-- Witness for claim C5: a concrete run whose resource stage fails with a
base error. -/
theorem initProvider_error_stage_wrapped_witness :
    (∃ cause,
       (⟨some (GoErr.base "boom"), none, []⟩ : ExtEnv).resourceNewErr
         = some cause ∧
       GoErr.wrap "failed to create resource" (GoErr.base "boom")
         = GoErr.wrap "failed to create resource" cause ∧
       (GoErr.wrap "failed to create resource" (GoErr.base "boom")).message
         = "failed to create resource: " ++ cause.message ∧
       (GoErr.wrap "failed to create resource" (GoErr.base "boom")).unwrap
         = some cause) ∨
    (∃ cause,
       (⟨some (GoErr.base "boom"), none, []⟩ : ExtEnv).resourceNewErr = none ∧
       (⟨some (GoErr.base "boom"), none, []⟩ : ExtEnv).exporterNewErr
         = some cause ∧
       GoErr.wrap "failed to create resource" (GoErr.base "boom")
         = GoErr.wrap "failed to create trace exporter" cause ∧
       (GoErr.wrap "failed to create resource" (GoErr.base "boom")).message
         = "failed to create trace exporter: " ++ cause.message ∧
       (GoErr.wrap "failed to create resource" (GoErr.base "boom")).unwrap
         = some cause) :=
  initProvider_error_stage_wrapped ⟨some (GoErr.base "boom"), none, []⟩
    sampleCtx DefaultConfig sampleGlobals
    (GoErr.wrap "failed to create resource" (GoErr.base "boom"))
    sampleGlobals (by rfl)

/-- Claim C6 counterexample: with the default configuration amended to an
empty service name, `InitProvider` succeeds and the resulting resource
descriptor's service-name attribute is the empty string — not a default
placeholder — refuting the claim that the descriptor is labeled with a
default service name rather than an empty one. -/
theorem initProvider_empty_service_name_not_defaulted :
    ((InitProvider sampleEnvOk sampleCtx
        { DefaultConfig with ServiceName := "" } sampleGlobals).1.toOption.map
      (fun p => p.tracerProvider.resource.lookup serviceNameKey))
      = some (some (AttrValue.str "")) := by
  rfl

/-- Claim C6 as amended: a configuration with an empty service name is
accepted — `InitProvider` succeeds or fails exactly as it would with any
other service name, no validation error arising from the name — and the
resulting resource descriptor's service-name attribute is the empty
string; the default placeholder service name ("unknown-service") is
supplied only by `DefaultConfig`, not by `InitProvider`. -/
theorem initProvider_empty_service_name_accepted (env : ExtEnv)
    (ctx : GoContext) (cfg : Config) (g : OtelGlobals) :
    ((InitProvider env ctx { cfg with ServiceName := "" } g).1.isOk
        = (InitProvider env ctx cfg g).1.isOk) ∧
    (∀ p g', InitProvider env ctx { cfg with ServiceName := "" } g
        = (Except.ok p, g') →
      p.tracerProvider.resource.lookup serviceNameKey
        = some (AttrValue.str "")) ∧
    DefaultConfig.ServiceName = "unknown-service" := by
  refine ⟨?_, ?_, rfl⟩
  · cases hr : env.resourceNewErr with
    | some c => simp [InitProvider, resourceNew, hr]
    | none =>
      cases hx : env.exporterNewErr with
      | some c => simp [InitProvider, resourceNew, otlptraceNew, hr, hx]
      | none =>
        simp [InitProvider, resourceNew, otlptraceNew, hr, hx, Except.isOk,
          Except.toBool]
  · intro p g' h
    cases hr : env.resourceNewErr with
    | some c => simp [InitProvider, resourceNew, hr] at h
    | none =>
      cases hx : env.exporterNewErr with
      | some c => simp [InitProvider, resourceNew, otlptraceNew, hr, hx] at h
      | none =>
        rw [initProvider_ok_eq env ctx _ g hr hx] at h
        injection h with h1 h2
        injection h1 with hp
        rw [← hp]
        rfl

/-- Witness for claim C6 as amended: the inner implication discharged at a
concrete successful run with an empty service name. -/
theorem initProvider_empty_service_name_accepted_witness :
    (initTracerProvider sampleEnvOk
        { DefaultConfig with ServiceName := "" }).resource.lookup
      serviceNameKey = some (AttrValue.str "") :=
  (initProvider_empty_service_name_accepted sampleEnvOk sampleCtx
      DefaultConfig sampleGlobals).2.1
    { tracerProvider :=
        initTracerProvider sampleEnvOk { DefaultConfig with ServiceName := "" }
      config := { DefaultConfig with ServiceName := "" } }
    { sampleGlobals with
        tracerProvider := some (initTracerProvider sampleEnvOk
          { DefaultConfig with ServiceName := "" })
        textMapPropagator := Propagator.composite
          [PropagatorPart.traceContext, PropagatorPart.baggage] }
    (by rfl)

/-- Claim C8: `GetTracer` has no error outcome — for every provider and
name it returns a tracer — two calls with the same name return the same
tracer, and the returned tracer is usable: starting a span always
succeeds, appending a fresh unended span with the requested name, the
tracer's scope and the context's current span as parent. -/
theorem provider_getTracer_total_interchangeable (p : Provider)
    (n1 n2 : String) (h : n1 = n2) :
    p.GetTracer n1 = p.GetTracer n2 ∧
    ∀ (ctx : SpanContext) (st : TraceState) (spanName : String),
      ∃ st' : TraceState,
        (p.GetTracer n1).start ctx spanName st
          = (⟨some st.spans.length⟩, st.spans.length, st') ∧
        st'.spans[st.spans.length]? =
          some { scope := n1, name := spanName, parent := ctx.currentSpan,
                 attrs := [], ended := false } := by
  subst h
  refine ⟨rfl, fun ctx st spanName => ⟨_, rfl, ?_⟩⟩
  exact List.getElem?_concat_length _ _

/-- Witness for claim C8 at a concrete provider, name, context and trace
state. -/
theorem provider_getTracer_total_interchangeable_witness :
    sampleProvider.GetTracer "api-handlers"
      = sampleProvider.GetTracer "api-handlers" ∧
    ∃ st' : TraceState,
      (sampleProvider.GetTracer "api-handlers").start ⟨none⟩ "op" ⟨[]⟩
        = (⟨some 0⟩, 0, st') ∧
      st'.spans[0]? =
        some { scope := "api-handlers", name := "op", parent := none,
               attrs := [], ended := false } :=
  ⟨(provider_getTracer_total_interchangeable sampleProvider "api-handlers"
      "api-handlers" rfl).1,
   (provider_getTracer_total_interchangeable sampleProvider "api-handlers"
      "api-handlers" rfl).2 ⟨none⟩ ⟨[]⟩ "op"⟩

theorem newTracerMiddleware_handle_eq (p : Provider) (tname : String)
    (next : Handler) (r : Request) (st : TraceState) :
    (NewTracerMiddleware p tname).Handle next r st =
      (next (r.withContext ⟨some st.spans.length⟩)
        ((⟨st.spans ++
            [{ scope := tname, name := r.method ++ " " ++ r.url.path,
               parent := r.ctx.currentSpan, attrs := [],
               ended := false }]⟩ : TraceState).setSpanAttributes
          st.spans.length
          [attributeString "http.method" r.method,
           attributeString "http.url" r.url.render])).endSpan
        st.spans.length := rfl

/-- Claim C2: the middleware built by `NewTracerMiddleware` from a provider
and a logical name exposes exactly the provider's tracer for that name,
and composing it around any request-handling entry point makes every
inbound request (whose context carries no span) start a root span named
`method ++ " " ++ path`, with the `http.method` and `http.url` attributes
attached, and the span is ended after the wrapped handler returns — on
every exit path, since the end is unconditional — for any wrapped handler
that does not rewrite spans it did not create. -/
theorem tracerMiddleware_handle_spec (p : Provider) (tname : String)
    (next : Handler) (r : Request) (st : TraceState)
    (hroot : r.ctx.currentSpan = none)
    (hnext : Handler.preservesExisting next) :
    (NewTracerMiddleware p tname).Tracer = p.GetTracer tname ∧
    ∃ s : Span,
      ((NewTracerMiddleware p tname).Handle next r
          st).spans[st.spans.length]? = some s ∧
      s.scope = tname ∧
      s.name = r.method ++ " " ++ r.url.path ∧
      s.parent = none ∧
      attributeString "http.method" r.method ∈ s.attrs ∧
      attributeString "http.url" r.url.render ∈ s.attrs ∧
      s.ended = true := by
  refine ⟨rfl, ?_⟩
  rw [newTracerMiddleware_handle_eq]
  have h1 : ((⟨st.spans ++
      [{ scope := tname, name := r.method ++ " " ++ r.url.path,
         parent := r.ctx.currentSpan, attrs := [],
         ended := false }]⟩ : TraceState)).spans[st.spans.length]? =
      some { scope := tname, name := r.method ++ " " ++ r.url.path,
             parent := r.ctx.currentSpan, attrs := [], ended := false } :=
    List.getElem?_concat_length _ _
  have h2 := setSpanAttributes_getElem _ st.spans.length _
    [attributeString "http.method" r.method,
     attributeString "http.url" r.url.render] h1
  obtain ⟨s1, h3, hsc, hnm, hat, hpar⟩ :=
    hnext (r.withContext ⟨some st.spans.length⟩) _ st.spans.length _ h2
  rw [endSpan_getElem _ _ _ h3]
  have hsc' : s1.scope = tname := hsc
  have hnm' : s1.name = r.method ++ " " ++ r.url.path := hnm
  have hat' : s1.attrs =
      [attributeString "http.method" r.method,
       attributeString "http.url" r.url.render] := hat
  have hpar' : s1.parent = r.ctx.currentSpan := hpar
  refine ⟨{ s1 with ended := true }, rfl, hsc', hnm',
    hpar'.trans hroot, ?_, ?_, rfl⟩
  · show attributeString "http.method" r.method ∈ s1.attrs
    rw [hat']
    exact List.mem_cons_self _ _
  · show attributeString "http.url" r.url.render ∈ s1.attrs
    rw [hat']
    exact List.mem_cons_of_mem _ (List.mem_cons_self _ _)

/-- Witness for claim C2: a concrete GET request through the middleware
around the do-nothing handler, starting from an empty trace state. -/
theorem tracerMiddleware_handle_spec_witness :
    (NewTracerMiddleware sampleProvider "api-handlers").Tracer
      = sampleProvider.GetTracer "api-handlers" ∧
    ∃ s : Span,
      ((NewTracerMiddleware sampleProvider "api-handlers").Handle idHandler
          { method := "GET", url := { path := "/api/users", rawQuery := "" },
            ctx := ⟨none⟩ }
          ⟨[]⟩).spans[(0 : Nat)]? = some s ∧
      s.scope = "api-handlers" ∧
      s.name = "GET /api/users" ∧
      s.parent = none ∧
      attributeString "http.method" "GET" ∈ s.attrs ∧
      attributeString "http.url" "/api/users" ∈ s.attrs ∧
      s.ended = true :=
  tracerMiddleware_handle_spec sampleProvider "api-handlers" idHandler
    { method := "GET", url := { path := "/api/users", rawQuery := "" },
      ctx := ⟨none⟩ }
    ⟨[]⟩ rfl
    (fun _ _ _ s h => ⟨s, h, rfl, rfl, rfl, rfl⟩)

end GoOtel
